import Mathlib

/-!
# Shallow embedding of the QCEC equivalence-checking core

This file embeds the DD-based equivalence-checking engine of the QCEC
library (the `EquivalenceChecker` driver, the `equals` predicate, the
`LookaheadApplicationScheme`, and `DDSimulationChecker`) and proves
properties of the embedded definitions.

Machine `double` values are modelled as rationals; the external DD package
(multiplication, inner product, close-to-identity test, node allocation) is
modelled as a capability record of functions, following its interface
contract.  Reference-count side effects (`incRef`/`decRef`/
`garbageCollect`) are recorded as an event trace.
-/

namespace QCEC

/-- The closed set of equivalence verdicts.  Modelled from the spec: the
`EquivalenceCriterion` enumeration is declared in a header that is not part
of the sources; the spec lists its members. -/
inductive EquivalenceCriterion where
  | Equivalent
  | EquivalentUpToGlobalPhase
  | EquivalentUpToPhase
  | NotEquivalent
  | NoInformation
  | ProbablyEquivalent
  deriving DecidableEq, Repr

/-- A gate of a circuit.  For the checker driver only the distinction
between SWAP operations (elided into the permutation) and all other
operations matters; other operations carry an opaque identifier. -/
inductive Gate where
  | swap (a b : Nat)
  | op (id : Nat)
  deriving DecidableEq, Repr

/-- A quantum circuit as the core consumes it: a read-only gate sequence
plus qubit-count metadata.  Modelled from the spec: `qc::QuantumComputation`
is an external collaborator and only its accessors are used by the
sources. -/
structure QuantumComputation where
  gates : List Gate
  getNqubits : Nat
  getNqubitsWithoutAncillae : Nat
  deriving DecidableEq, Repr

/-- Task-manager state.  Modelled from the spec: `TaskManager` is not among
the sources; the spec specifies a cursor, a permutation map, a running DD
and a finished flag.  The running DD is represented abstractly by the list
of gates multiplied into it so far; SWAPs folded into the permutation are
recorded as index pairs. -/
structure TaskManager where
  circuit : QuantumComputation
  cursor : Nat
  applied : List Gate
  perm : List (Nat × Nat)
  deriving DecidableEq, Repr

/-- `TaskManager(qc, dd)`: a fresh cursor at the start of `qc`. -/
def TaskManager.init (qc : QuantumComputation) : TaskManager :=
  { circuit := qc, cursor := 0, applied := [], perm := [] }

/-- `finished()`: cursor past the last gate. -/
def TaskManager.finished (tm : TaskManager) : Bool :=
  tm.circuit.gates.length ≤ tm.cursor

/-- Helper for `applySwapOperations`: consume leading SWAPs of the
remaining gate list, rewriting the permutation. -/
def swapElide : List Gate → Nat → List (Nat × Nat) → Nat × List (Nat × Nat)
  | Gate.swap a b :: rest, cursor, perm => swapElide rest (cursor + 1) ((a, b) :: perm)
  | _, cursor, perm => (cursor, perm)

/-- `applySwapOperations()`: while the next pending gate is a SWAP, rewrite
the permutation map rather than multiplying.  Modelled from the spec's
`TaskManager` contract. -/
def TaskManager.applySwapOperations (tm : TaskManager) : TaskManager :=
  let cp := swapElide (tm.circuit.gates.drop tm.cursor) tm.cursor tm.perm
  { tm with cursor := cp.1, perm := cp.2 }

/-- Apply the gate under the cursor to the running DD and advance. -/
def TaskManager.advanceOne (tm : TaskManager) : TaskManager :=
  match tm.circuit.gates.get? tm.cursor with
  | some g => { tm with cursor := tm.cursor + 1, applied := tm.applied ++ [g] }
  | none => tm

/-- `advance(n)`: apply the next `n` gates to the running DD.  Modelled
from the spec's `TaskManager` contract. -/
def TaskManager.advance (tm : TaskManager) : Nat → TaskManager
  | 0 => tm
  | n + 1 => tm.advanceOne.advance n

/-- `advanceIterator()`: advance the cursor by one without multiplying. -/
def TaskManager.advanceIterator (tm : TaskManager) : TaskManager :=
  { tm with cursor := tm.cursor + 1 }

/-- `configuration.application.scheme` values. -/
inductive ApplicationSchemeType where
  | OneToOne
  | Proportional
  | Lookahead
  | GateCost
  deriving DecidableEq, Repr

/-- `configuration.simulation.stateType` values. -/
inductive StateType where
  | ComputationalBasis
  | Random1QBasis
  | Stabilizer
  deriving DecidableEq, Repr

/-- The `application` block of the configuration. -/
structure ApplicationOptions where
  scheme : ApplicationSchemeType
  useProfile : Bool
  profileLocation : String
  costFunctionId : Nat
  deriving DecidableEq, Repr

/-- The `functionality` block of the configuration. -/
structure FunctionalityOptions where
  traceThreshold : ℚ
  deriving DecidableEq, Repr

/-- The `simulation` block of the configuration. -/
structure SimulationOptions where
  fidelityThreshold : ℚ
  stateType : StateType
  deriving DecidableEq, Repr

/-- The configuration record consumed by the checker. -/
structure Configuration where
  application : ApplicationOptions
  functionality : FunctionalityOptions
  simulation : SimulationOptions
  deriving DecidableEq, Repr

/-- Error kinds raised by the embedded core (spec section 7). -/
inductive ECError where
  | UnsupportedSchemeForDDType
  | UninitializedScheme
  | InvalidGate
  | OutOfNodes
  | ProfileUnreadable
  deriving DecidableEq, Repr

/-- The DD flavor a checker instantiation works over (the `DDType` template
parameter: `qc::MatrixDD` or `qc::VectorDD`). -/
inductive DDKind where
  | matrix
  | vector
  deriving DecidableEq, Repr

/-- The application-scheme object selected by the constructor's `switch`. -/
inductive ApplicationSchemeChoice where
  | oneToOne
  | proportional
  | lookahead
  | gateCostStatic
  | gateCostProfile
  deriving DecidableEq, Repr

/-- The `switch` over `configuration.application.scheme` in the
`EquivalenceChecker` constructor: selects the application scheme, throwing
when Lookahead is requested for a non-matrix DD type. -/
def selectApplicationScheme (kind : DDKind) (configuration : Configuration) :
    Except ECError ApplicationSchemeChoice :=
  match configuration.application.scheme with
  | ApplicationSchemeType.OneToOne => Except.ok ApplicationSchemeChoice.oneToOne
  | ApplicationSchemeType.Proportional => Except.ok ApplicationSchemeChoice.proportional
  | ApplicationSchemeType.Lookahead =>
      match kind with
      | DDKind.matrix => Except.ok ApplicationSchemeChoice.lookahead
      | DDKind.vector => Except.error ECError.UnsupportedSchemeForDDType
  | ApplicationSchemeType.GateCost =>
      if configuration.application.useProfile then
        Except.ok ApplicationSchemeChoice.gateCostProfile
      else
        Except.ok ApplicationSchemeChoice.gateCostStatic

/-- The data members initialized by the `EquivalenceChecker` constructor's
member-initializer list (before the `switch` on the application scheme).
`dd` is the package constructed over `nqubits`, represented by that qubit
count. -/
structure EquivalenceCheckerMembers where
  qc1 : QuantumComputation
  qc2 : QuantumComputation
  nqubits : Nat
  dd : Nat
  taskManager1 : TaskManager
  taskManager2 : TaskManager
  configuration : Configuration
  deriving DecidableEq, Repr

/-- The member-initializer list of `EquivalenceChecker(qc1, qc2,
configuration)`: both task managers are constructed over `qc1` (source
lines 17 and 18). -/
def mkEquivalenceCheckerMembers (qc1 qc2 : QuantumComputation)
    (configuration : Configuration) : EquivalenceCheckerMembers :=
  let nqubits := max qc1.getNqubits qc2.getNqubits
  { qc1 := qc1
    qc2 := qc2
    nqubits := nqubits
    dd := nqubits
    taskManager1 := TaskManager.init qc1
    taskManager2 := TaskManager.init qc1
    configuration := configuration }

/-- The complete `EquivalenceChecker` construction: member initialization
followed by the scheme-selection `switch`, which may throw. -/
def mkEquivalenceChecker (kind : DDKind) (qc1 qc2 : QuantumComputation)
    (configuration : Configuration) :
    Except ECError (EquivalenceCheckerMembers × ApplicationSchemeChoice) :=
  match selectApplicationScheme kind configuration with
  | Except.ok choice => Except.ok (mkEquivalenceCheckerMembers qc1 qc2 configuration, choice)
  | Except.error e => Except.error e

/-- The state `execute()` operates on: the two task managers owned by the
checker. -/
structure ECState where
  taskManager1 : TaskManager
  taskManager2 : TaskManager
  deriving DecidableEq, Repr

/-- `taskManager1.applySwapOperations(); taskManager2.applySwapOperations();` -/
def ECState.applySwapsBoth (st : ECState) : ECState :=
  { taskManager1 := st.taskManager1.applySwapOperations
    taskManager2 := st.taskManager2.applySwapOperations }

/-- `taskManager1.advance(apply1); taskManager2.advance(apply2);` where
`(apply1, apply2)` was returned by the application scheme. -/
def ECState.advanceByScheme (scheme : ECState → Nat × Nat) (st : ECState) : ECState :=
  let ab := scheme st
  { taskManager1 := st.taskManager1.advance ab.1
    taskManager2 := st.taskManager2.advance ab.2 }

/-- `EquivalenceChecker::execute()` (source lines 137-152), fuel-indexed:
`while (!taskManager1.finished() && !taskManager2.finished())` — apply the
pending SWAP operations on both task managers, and if neither has then
finished, query the application scheme and advance both accordingly. -/
def execute (scheme : ECState → Nat × Nat) : Nat → ECState → ECState
  | 0, st => st
  | fuel + 1, st =>
    if !st.taskManager1.finished && !st.taskManager2.finished then
      let st1 := st.applySwapsBoth
      let st2 :=
        if !st1.taskManager1.finished && !st1.taskManager2.finished then
          st1.advanceByScheme scheme
        else st1
      execute scheme fuel st2
    else st

/-- Modelled from the spec: the `execute()` loop as claim C2 words it —
"loop until both finished": each iteration applies pending SWAPs on both
task managers, exits the loop if either task manager has now finished, and
otherwise advances both by the scheme's amounts. -/
def executeUntilBothFinished (scheme : ECState → Nat × Nat) : Nat → ECState → ECState
  | 0, st => st
  | fuel + 1, st =>
    if st.taskManager1.finished && st.taskManager2.finished then st
    else
      let st1 := st.applySwapsBoth
      if st1.taskManager1.finished || st1.taskManager2.finished then st1
      else executeUntilBothFinished scheme fuel (st1.advanceByScheme scheme)

/-- The amended description of the `execute()` loop: it runs while NEITHER
task manager is finished; each iteration applies pending SWAPs on both,
exits if either has then finished, and otherwise advances both by the
scheme's amounts. -/
def executeWhileNeitherFinished (scheme : ECState → Nat × Nat) : Nat → ECState → ECState
  | 0, st => st
  | fuel + 1, st =>
    if st.taskManager1.finished || st.taskManager2.finished then st
    else
      let st1 := st.applySwapsBoth
      if st1.taskManager1.finished || st1.taskManager2.finished then st1
      else executeWhileNeitherFinished scheme fuel (st1.advanceByScheme scheme)

/-- Modelled from the spec: cooperative cancellation as described in the
spec's concurrency section — at the top of each iteration of `execute()`
the checker tests the shared `done` flag and, if set, exits with
`NoInformation`; otherwise the iteration proceeds as in the source loop. -/
def executeCancelable (done : Bool) (scheme : ECState → Nat × Nat) :
    Nat → ECState → ECState × Option EquivalenceCriterion
  | 0, st => (st, none)
  | fuel + 1, st =>
    if done then (st, some EquivalenceCriterion.NoInformation)
    else if !st.taskManager1.finished && !st.taskManager2.finished then
      let st1 := st.applySwapsBoth
      let st2 :=
        if !st1.taskManager1.finished && !st1.taskManager2.finished then
          st1.advanceByScheme scheme
        else st1
      executeCancelable done scheme fuel st2
    else (st, none)

set_option linter.unusedVariables false in
/-- The source `execute()` run in a context that holds a `done` flag: the
source loop reads no such flag and yields no verdict of its own, so the
lift ignores `done` and reports no verdict. -/
def executeWithDone (done : Bool) (scheme : ECState → Nat × Nat)
    (fuel : Nat) (st : ECState) : ECState × Option EquivalenceCriterion :=
  (execute scheme fuel st, none)

/-- An application scheme returning `(1, 1)` at every step, for concrete
evaluation (the OneToOne scheme's policy). -/
def schemeOneToOne : ECState → Nat × Nat := fun _ => (1, 1)

/-- An empty single-qubit circuit. -/
def qcEmpty : QuantumComputation :=
  { gates := [], getNqubits := 1, getNqubitsWithoutAncillae := 1 }

/-- A single-qubit circuit holding one SWAP operation. -/
def qcOneSwap : QuantumComputation :=
  { gates := [Gate.swap 0 1], getNqubits := 2, getNqubitsWithoutAncillae := 2 }

/-- A single-qubit circuit holding one non-SWAP operation. -/
def qcOneOp : QuantumComputation :=
  { gates := [Gate.op 0], getNqubits := 1, getNqubitsWithoutAncillae := 1 }

/-- A driver state in which `taskManager1` is already finished while
`taskManager2` still has a pending SWAP operation. -/
def stOneFinished : ECState :=
  { taskManager1 := TaskManager.init qcEmpty
    taskManager2 := TaskManager.init qcOneSwap }

/-- A driver state in which both task managers have a pending non-SWAP
operation. -/
def stBothBusy : ECState :=
  { taskManager1 := TaskManager.init qcOneOp
    taskManager2 := TaskManager.init qcOneOp }

/-- A complex number with rational components, modelling the `dd::ComplexValue`
returned by the package (`r` real part, `i` imaginary part). -/
structure ComplexValue where
  r : ℚ
  i : ℚ
  deriving DecidableEq, Repr

/-- `std::abs` on the rational model of `double`. -/
def qabs (x : ℚ) : ℚ := if x < 0 then -x else x

/-- Modelled from the spec: the package's numeric comparison of two edge
weights, `approximatelyEquals` — each component agrees within the numeric
tolerance `eps`. -/
def ComplexValue.approximatelyEquals (eps : ℚ) (a b : ComplexValue) : Bool :=
  decide (qabs (a.r - b.r) < eps) && decide (qabs (a.i - b.i) < eps)

/-- A matrix-DD node: an identity `id` standing in for the node pointer
(hash-consing makes pointer equality structural equality) together with the
package's `ident` flag marking identity nodes. -/
structure MNode where
  id : Nat
  ident : Bool
  deriving DecidableEq, Repr

/-- A matrix-DD handle: node pointer `p` and top edge weight `w`. -/
structure MatrixDD where
  p : MNode
  w : ComplexValue
  deriving DecidableEq, Repr

/-- A vector-DD node (identity standing in for the node pointer). -/
structure VNode where
  id : Nat
  deriving DecidableEq, Repr

/-- A vector-DD handle: node pointer `p` and top edge weight `w`. -/
structure VectorDD where
  p : VNode
  w : ComplexValue
  deriving DecidableEq, Repr

/-- The matrix operations the `equals` predicate consumes from the DD
package, as a capability record (the package itself is external). -/
structure MatrixPackage where
  multiply : MatrixDD → MatrixDD → MatrixDD
  conjugateTranspose : MatrixDD → MatrixDD
  isCloseToIdentity : MatrixDD → ℚ → Bool

/-- The vector operations the `equals` predicate consumes from the DD
package. -/
structure VectorPackage where
  innerProduct : VectorDD → VectorDD → ComplexValue

/-- `EquivalenceChecker<qc::MatrixDD>::equals(e, f)` (source lines 45-77
and 95): shared fast path on pointer equality, then the close-to-identity
check of `e · conjugateTranspose(f)` (skipping the multiplication when one
operand's node carries the `ident` flag). -/
def equalsMat (dd : MatrixPackage) (eps traceThreshold : ℚ)
    (e f : MatrixDD) : EquivalenceCriterion :=
  if e.p = f.p then
    if !ComplexValue.approximatelyEquals eps e.w f.w then
      EquivalenceCriterion.EquivalentUpToGlobalPhase
    else
      EquivalenceCriterion.Equivalent
  else
    let isClose :=
      if e.p.ident then dd.isCloseToIdentity f traceThreshold
      else if f.p.ident then dd.isCloseToIdentity e traceThreshold
      else dd.isCloseToIdentity (dd.multiply e (dd.conjugateTranspose f)) traceThreshold
    if isClose then
      if !ComplexValue.approximatelyEquals eps e.w f.w then
        EquivalenceCriterion.EquivalentUpToGlobalPhase
      else
        EquivalenceCriterion.Equivalent
    else
      EquivalenceCriterion.NotEquivalent

/-- `EquivalenceChecker<qc::VectorDD>::equals(e, f)` (source lines 45-53
and 78-95): shared fast path on pointer equality, then the inner-product
and fidelity comparison against `fidelityThreshold`. -/
def equalsVec (dd : VectorPackage) (eps fidelityThreshold : ℚ)
    (e f : VectorDD) : EquivalenceCriterion :=
  if e.p = f.p then
    if !ComplexValue.approximatelyEquals eps e.w f.w then
      EquivalenceCriterion.EquivalentUpToGlobalPhase
    else
      EquivalenceCriterion.Equivalent
  else
    let innerProduct := dd.innerProduct e f
    if qabs (innerProduct.r - 1) < fidelityThreshold then
      EquivalenceCriterion.Equivalent
    else
      let fidelity := innerProduct.r * innerProduct.r + innerProduct.i * innerProduct.i
      if qabs (fidelity - 1) < fidelityThreshold then
        EquivalenceCriterion.EquivalentUpToPhase
      else
        EquivalenceCriterion.NotEquivalent

/-- A concrete matrix package over the toy DD model, for witnesses: the
close-to-identity test looks at the node's `ident` flag and the threshold's
sign. -/
def mPkg : MatrixPackage :=
  { multiply := fun a _ => a
    conjugateTranspose := fun a => a
    isCloseToIdentity := fun m t => m.p.ident && decide (0 < t) }

/-- A concrete vector package over the toy DD model, for witnesses: the
inner product compares the two weights. -/
def vPkg : VectorPackage :=
  { innerProduct := fun u v =>
      { r := u.w.r * v.w.r + u.w.i * v.w.i, i := u.w.r * v.w.i - u.w.i * v.w.r } }

/-- A non-identity matrix DD with weight 1. -/
def mddA : MatrixDD := { p := { id := 0, ident := false }, w := { r := 1, i := 0 } }

/-- An identity-flagged matrix DD with weight 1 and a distinct node. -/
def mddI : MatrixDD := { p := { id := 1, ident := true }, w := { r := 1, i := 0 } }

/-- A vector DD with weight 1. -/
def vddA : VectorDD := { p := { id := 0 }, w := { r := 1, i := 0 } }

/-- A vector DD with a distinct node and weight `i`. -/
def vddB : VectorDD := { p := { id := 1 }, w := { r := 0, i := 1 } }

/-- The state generator consumed by `setRandomInitialState`.  Modelled from
the spec: `StateGenerator` is an external collaborator; its
`generateRandomState(dd, nqubits, nancillary, stateType)` draws a random
state of the configured kind.  The `dd` package argument is represented by
the package's token (its qubit count). -/
structure StateGenerator where
  generateRandomState : Nat → Nat → Nat → StateType → VectorDD

/-- The `DDSimulationChecker` state: the base-class members plus the
vector-flavor `initialState`. -/
structure DDSimulationChecker where
  qc1 : QuantumComputation
  qc2 : QuantumComputation
  nqubits : Nat
  dd : Nat
  taskManager1 : TaskManager
  taskManager2 : TaskManager
  configuration : Configuration
  applicationScheme : ApplicationSchemeChoice
  maxActiveNodes : Nat
  initialState : VectorDD

/-- `DDSimulationChecker::setRandomInitialState(generator)` (source lines
32-35): `const auto nancillary = nqubits = qc1.getNqubitsWithoutAncillae();`
followed by regenerating `initialState`. -/
def DDSimulationChecker.setRandomInitialState (generator : StateGenerator)
    (c : DDSimulationChecker) : DDSimulationChecker :=
  let nqubits := c.qc1.getNqubitsWithoutAncillae
  let nancillary := nqubits
  { c with
    nqubits := nqubits
    initialState := generator.generateRandomState c.dd nqubits nancillary
      c.configuration.simulation.stateType }

/-- The matrix operations the Lookahead scheme consumes from the DD
package: multiplication, the node-count `size`, and the DD (or inverse DD)
of the gate under a task manager's cursor (`getDD` / `getInverseDD`). -/
structure LookaheadPackage where
  multiply : MatrixDD → MatrixDD → MatrixDD
  size : MatrixDD → Nat
  gateDD : Gate → MatrixDD
  gateInverseDD : Gate → MatrixDD

/-- `taskManager1.getDD()`: the DD of the gate under the cursor, without
advancing. -/
def TaskManager.getDD (pkg : LookaheadPackage) (tm : TaskManager) : MatrixDD :=
  pkg.gateDD (tm.circuit.gates.getD tm.cursor (Gate.op 0))

/-- `taskManager2.getInverseDD()`: the inverse DD of the gate under the
cursor, without advancing. -/
def TaskManager.getInverseDD (pkg : LookaheadPackage) (tm : TaskManager) : MatrixDD :=
  pkg.gateInverseDD (tm.circuit.gates.getD tm.cursor (Gate.op 0))

/-- A reference-count event issued against the DD package. -/
inductive RefEvent where
  | incRef (d : MatrixDD)
  | decRef (d : MatrixDD)
  | garbageCollect
  deriving DecidableEq, Repr

/-- The `LookaheadApplicationScheme` state: both task managers, the cached
per-side operation DDs with their flags, the external pointer to the
alternating checker's running matrix DD (`none` while unset), whether the
package reference has been set, and the trace of reference-count events
issued so far. -/
structure LookaheadState where
  taskManager1 : TaskManager
  taskManager2 : TaskManager
  cached1 : Bool
  cached2 : Bool
  op1 : MatrixDD
  op2 : MatrixDD
  internalState : Option MatrixDD
  packageSet : Bool
  refTrace : List RefEvent
  deriving DecidableEq, Repr

/-- `LookaheadApplicationScheme::operator()` (the full body): check the
wiring preconditions, cache any missing per-side operation, compute both
candidate products and their sizes, greedily install the smaller one
(preferring side 1 on ties), issue the reference-count bookkeeping, then
either clean up on a finished side or advance the chosen side's cursor;
every exit returns `(0, 0)`. -/
def lookaheadApply (pkg : LookaheadPackage) (s0 : LookaheadState) :
    Except ECError ((Nat × Nat) × LookaheadState) :=
  match s0.internalState with
  | none => Except.error ECError.UninitializedScheme
  | some g0 =>
    if !s0.packageSet then Except.error ECError.UninitializedScheme
    else
      let s1 :=
        if !s0.cached1 then
          let op1 := TaskManager.getDD pkg s0.taskManager1
          { s0 with op1 := op1, cached1 := true
                    refTrace := s0.refTrace ++ [RefEvent.incRef op1] }
        else s0
      let s2 :=
        if !s1.cached2 then
          let op2 := TaskManager.getInverseDD pkg s1.taskManager2
          { s1 with op2 := op2, cached2 := true
                    refTrace := s1.refTrace ++ [RefEvent.incRef op2] }
        else s1
      let saved := g0
      let dd1 := pkg.multiply s2.op1 saved
      let size1 := pkg.size dd1
      let dd2 := pkg.multiply saved s2.op2
      let size2 := pkg.size dd2
      let g3 := if size1 ≤ size2 then dd1 else dd2
      let s3 :=
        if size1 ≤ size2 then
          { s2 with internalState := some dd1, cached1 := false
                    refTrace := s2.refTrace ++ [RefEvent.decRef s2.op1] }
        else
          { s2 with internalState := some dd2, cached2 := false
                    refTrace := s2.refTrace ++ [RefEvent.decRef s2.op2] }
      let s4 :=
        { s3 with refTrace := s3.refTrace ++
            [RefEvent.incRef g3, RefEvent.decRef saved, RefEvent.garbageCollect] }
      if size1 ≤ size2 then
        if s4.taskManager1.finished then
          if s4.cached2 then
            let saved2 := g3
            let gNew := pkg.multiply saved2 s4.op2
            Except.ok ((0, 0),
              { s4 with internalState := some gNew, cached2 := false
                        refTrace := s4.refTrace ++
                          [RefEvent.incRef gNew, RefEvent.decRef saved2,
                           RefEvent.decRef s4.op2, RefEvent.garbageCollect] })
          else Except.ok ((0, 0), s4)
        else
          Except.ok ((0, 0), { s4 with taskManager1 := s4.taskManager1.advanceIterator })
      else
        if s4.taskManager2.finished then
          if s4.cached1 then
            let saved2 := g3
            let gNew := pkg.multiply s4.op1 saved2
            Except.ok ((0, 0),
              { s4 with internalState := some gNew, cached1 := false
                        refTrace := s4.refTrace ++
                          [RefEvent.incRef gNew, RefEvent.decRef saved2,
                           RefEvent.decRef s4.op1, RefEvent.garbageCollect] })
          else Except.ok ((0, 0), s4)
        else
          Except.ok ((0, 0), { s4 with taskManager2 := s4.taskManager2.advanceIterator })

/-- The operation DD side 1 works with during a call: the cached `op1` if
present, else the DD fetched from `taskManager1`. -/
def LookaheadState.effOp1 (pkg : LookaheadPackage) (s : LookaheadState) : MatrixDD :=
  if s.cached1 then s.op1 else TaskManager.getDD pkg s.taskManager1

/-- The operation DD side 2 works with during a call: the cached `op2` if
present, else the inverse DD fetched from `taskManager2`. -/
def LookaheadState.effOp2 (pkg : LookaheadPackage) (s : LookaheadState) : MatrixDD :=
  if s.cached2 then s.op2 else TaskManager.getInverseDD pkg s.taskManager2

/-- A concrete configuration requesting the Lookahead application scheme,
for witnesses. -/
def cfgLookahead : Configuration :=
  { application :=
      { scheme := ApplicationSchemeType.Lookahead
        useProfile := false
        profileLocation := ""
        costFunctionId := 0 }
    functionality := { traceThreshold := 1/1000 }
    simulation :=
      { fidelityThreshold := 1/1000, stateType := StateType.ComputationalBasis } }

/-- A concrete Lookahead package over the toy DD model, for witnesses: all
DDs have size 0, so the two candidate sizes always tie. -/
def laPkg : LookaheadPackage :=
  { multiply := fun a _ => a
    size := fun _ => 0
    gateDD := fun _ => mddA
    gateInverseDD := fun _ => mddA }

/-- A concrete, fully wired Lookahead scheme state whose first task manager
has a pending gate. -/
def laState : LookaheadState :=
  { taskManager1 := TaskManager.init qcOneOp
    taskManager2 := TaskManager.init qcOneOp
    cached1 := false
    cached2 := false
    op1 := mddA
    op2 := mddA
    internalState := some mddI
    packageSet := true
    refTrace := [] }

/-- C1: In the `EquivalenceChecker` constructor, `taskManager2` is
constructed with `qc1` (not `qc2`) as its circuit, so for every pair of
input circuits both task managers traverse the first circuit `qc1`. -/
theorem taskManager2_constructed_from_qc1 (qc1 qc2 : QuantumComputation)
    (configuration : Configuration) :
    (mkEquivalenceCheckerMembers qc1 qc2 configuration).taskManager1.circuit = qc1 ∧
    (mkEquivalenceCheckerMembers qc1 qc2 configuration).taskManager2.circuit = qc1 :=
  ⟨rfl, rfl⟩

/-- C8: Constructing an `EquivalenceChecker` over vector DDs with the
Lookahead application scheme fails with `UnsupportedSchemeForDDType`,
while for matrix DDs the same configuration selects the Lookahead
application scheme. -/
theorem lookahead_vector_dd_unsupported (qc1 qc2 : QuantumComputation)
    (configuration : Configuration)
    (h : configuration.application.scheme = ApplicationSchemeType.Lookahead) :
    mkEquivalenceChecker DDKind.vector qc1 qc2 configuration =
      Except.error ECError.UnsupportedSchemeForDDType ∧
    mkEquivalenceChecker DDKind.matrix qc1 qc2 configuration =
      Except.ok (mkEquivalenceCheckerMembers qc1 qc2 configuration,
        ApplicationSchemeChoice.lookahead) := by
  constructor <;> simp [mkEquivalenceChecker, selectApplicationScheme, h]

/-- C2 counterexample: the source `execute()` loop is NOT the loop claim C2
describes.  On a state whose first task manager is already finished while
the second still has a pending SWAP, the source loop exits immediately
(its guard requires both managers unfinished), whereas the claimed
"until both finished" loop would enter the body and consume the SWAP. -/
theorem execute_until_both_finished_refuted :
    execute schemeOneToOne 1 stOneFinished ≠
      executeUntilBothFinished schemeOneToOne 1 stOneFinished := by
  decide

/-- C2 (amended): the `execute()` loop applies pending SWAPs on both task
managers, exits if either has then finished, and otherwise advances both
by the scheme's amounts, looping while NEITHER task manager is finished
(it exits as soon as either one finishes). -/
theorem execute_fixpoint_of_finished (scheme : ECState → Nat × Nat)
    (fuel : Nat) (st : ECState)
    (h : (st.taskManager1.finished || st.taskManager2.finished) = true) :
    execute scheme fuel st = st := by
  cases fuel with
  | zero => rfl
  | succ n =>
    have hg : (!st.taskManager1.finished && !st.taskManager2.finished) = false := by
      rcases Bool.or_eq_true_iff.mp h with h1 | h1 <;> simp [h1]
    simp [execute, hg]

theorem execute_loops_while_neither_finished (scheme : ECState → Nat × Nat)
    (fuel : Nat) (st : ECState) :
    execute scheme fuel st = executeWhileNeitherFinished scheme fuel st := by
  induction fuel generalizing st with
  | zero => rfl
  | succ n ih =>
    by_cases h : (st.taskManager1.finished || st.taskManager2.finished) = true
    · have hg : (!st.taskManager1.finished && !st.taskManager2.finished) = false := by
        rcases Bool.or_eq_true_iff.mp h with h1 | h1 <;> simp [h1]
      simp [execute, executeWhileNeitherFinished, hg, h]
    · have h1 : st.taskManager1.finished = false := by
        cases hx : st.taskManager1.finished
        · rfl
        · exact absurd (by simp [hx]) h
      have h2 : st.taskManager2.finished = false := by
        cases hx : st.taskManager2.finished
        · rfl
        · exact absurd (by simp [hx]) h
      simp only [execute, executeWhileNeitherFinished, h1, h2, Bool.not_false,
        Bool.and_self, Bool.or_self, Bool.false_eq_true, if_false, if_true]
      by_cases hA : (st.applySwapsBoth.taskManager1.finished ||
          st.applySwapsBoth.taskManager2.finished) = true
      · have hgA : (!st.applySwapsBoth.taskManager1.finished &&
            !st.applySwapsBoth.taskManager2.finished) = false := by
          rcases Bool.or_eq_true_iff.mp hA with hB | hB <;> simp [hB]
        simp only [hgA, Bool.false_eq_true, if_false, hA, if_true]
        exact execute_fixpoint_of_finished scheme n st.applySwapsBoth hA
      · have hA1 : st.applySwapsBoth.taskManager1.finished = false := by
          cases hx : st.applySwapsBoth.taskManager1.finished
          · rfl
          · exact absurd (by simp [hx]) hA
        have hA2 : st.applySwapsBoth.taskManager2.finished = false := by
          cases hx : st.applySwapsBoth.taskManager2.finished
          · rfl
          · exact absurd (by simp [hx]) hA
        simp only [hA1, hA2, Bool.not_false, Bool.and_self, Bool.or_self,
          Bool.false_eq_true, if_false, if_true]
        exact ih (st.applySwapsBoth.advanceByScheme scheme)

/-- C3 counterexample: `execute()` does not implement the claimed
cancellation check.  With the `done` flag set and both task managers
holding a pending operation, the claimed loop exits at the top with
`NoInformation`, while the source loop ignores the flag, advances both
managers, and yields no verdict. -/
theorem execute_done_flag_refuted :
    executeWithDone true schemeOneToOne 1 stBothBusy ≠
      executeCancelable true schemeOneToOne 1 stBothBusy := by
  decide

/-- C3 (amended): the source `execute()` loop contains no cancellation
test: its result is independent of any `done` flag, it never yields
`NoInformation`, and it coincides with the spec's cancellable loop exactly
when the `done` flag is never set. -/
theorem execute_has_no_cancellation_check (done : Bool)
    (scheme : ECState → Nat × Nat) (fuel : Nat) (st : ECState) :
    executeWithDone done scheme fuel st = (execute scheme fuel st, none) ∧
    executeCancelable false scheme fuel st = (execute scheme fuel st, none) := by
  refine ⟨rfl, ?_⟩
  induction fuel generalizing st with
  | zero => rfl
  | succ n ih =>
    simp only [executeCancelable, execute, Bool.false_eq_true, if_false, ih]
    split <;> rfl

/-- C4: For matrix DDs with distinct node pointers, `equals` computes
`g = e · conjugateTranspose(f)` — skipping the multiplication and testing
the other operand when one operand's node is flagged identity — and
returns `Equivalent` when `g` is close to identity within `traceThreshold`
and the top edge weights approximately agree, `EquivalentUpToGlobalPhase`
when `g` is close to identity but the weights differ, and `NotEquivalent`
otherwise. -/
theorem equals_matrix_flavor_spec (dd : MatrixPackage) (eps traceThreshold : ℚ)
    (e f : MatrixDD) (hp : e.p ≠ f.p) :
    equalsMat dd eps traceThreshold e f =
      if (if e.p.ident then dd.isCloseToIdentity f traceThreshold
          else if f.p.ident then dd.isCloseToIdentity e traceThreshold
          else dd.isCloseToIdentity (dd.multiply e (dd.conjugateTranspose f))
            traceThreshold) then
        if ComplexValue.approximatelyEquals eps e.w f.w then
          EquivalenceCriterion.Equivalent
        else
          EquivalenceCriterion.EquivalentUpToGlobalPhase
      else
        EquivalenceCriterion.NotEquivalent := by
  simp only [equalsMat, if_neg hp]
  cases hc : (if e.p.ident then dd.isCloseToIdentity f traceThreshold
      else if f.p.ident then dd.isCloseToIdentity e traceThreshold
      else dd.isCloseToIdentity (dd.multiply e (dd.conjugateTranspose f)) traceThreshold) <;>
    cases hw : ComplexValue.approximatelyEquals eps e.w f.w <;> simp [hc, hw]

/-- Witness for C4 at a concrete input: `mddA` and `mddI` have distinct
node pointers, and the theorem's equation evaluates on them. -/
theorem equals_matrix_flavor_spec_witness :
    equalsMat mPkg (1/100) (1/1000) mddA mddI =
      if (if mddA.p.ident then mPkg.isCloseToIdentity mddI (1/1000)
          else if mddI.p.ident then mPkg.isCloseToIdentity mddA (1/1000)
          else mPkg.isCloseToIdentity (mPkg.multiply mddA (mPkg.conjugateTranspose mddI))
            (1/1000)) then
        if ComplexValue.approximatelyEquals (1/100) mddA.w mddI.w then
          EquivalenceCriterion.Equivalent
        else
          EquivalenceCriterion.EquivalentUpToGlobalPhase
      else
        EquivalenceCriterion.NotEquivalent :=
  equals_matrix_flavor_spec mPkg (1/100) (1/1000) mddA mddI (by decide)

/-- C5: For vector DDs with distinct node pointers, `equals` computes the
inner product `r + i·i_im` of `e` and `f` and returns, in this order of
precedence: `Equivalent` when `|r − 1| < fidelityThreshold`; otherwise
`EquivalentUpToPhase` when `|r² + i_im² − 1| < fidelityThreshold`;
otherwise `NotEquivalent`. -/
theorem equals_vector_flavor_spec (dd : VectorPackage) (eps fidelityThreshold : ℚ)
    (e f : VectorDD) (hp : e.p ≠ f.p) :
    equalsVec dd eps fidelityThreshold e f =
      if qabs ((dd.innerProduct e f).r - 1) < fidelityThreshold then
        EquivalenceCriterion.Equivalent
      else if qabs ((dd.innerProduct e f).r * (dd.innerProduct e f).r +
          (dd.innerProduct e f).i * (dd.innerProduct e f).i - 1) < fidelityThreshold then
        EquivalenceCriterion.EquivalentUpToPhase
      else
        EquivalenceCriterion.NotEquivalent := by
  simp only [equalsVec, if_neg hp]

/-- Witness for C5 at a concrete input: `vddA` and `vddB` have distinct
node pointers, and the theorem's equation evaluates on them. -/
theorem equals_vector_flavor_spec_witness :
    equalsVec vPkg (1/100) (1/1000) vddA vddB =
      if qabs ((vPkg.innerProduct vddA vddB).r - 1) < 1/1000 then
        EquivalenceCriterion.Equivalent
      else if qabs ((vPkg.innerProduct vddA vddB).r * (vPkg.innerProduct vddA vddB).r +
          (vPkg.innerProduct vddA vddB).i * (vPkg.innerProduct vddA vddB).i - 1) <
            1/1000 then
        EquivalenceCriterion.EquivalentUpToPhase
      else
        EquivalenceCriterion.NotEquivalent :=
  equals_vector_flavor_spec vPkg (1/100) (1/1000) vddA vddB (by decide)

/-- C6: For DD handles of either flavor with equal node pointers, `equals`
returns `Equivalent` when the top edge weights are approximately equal and
`EquivalentUpToGlobalPhase` when they differ; in particular `equals(M, M)`
returns `Equivalent` for every DD `M` (the numeric tolerance being
positive). -/
theorem equals_fast_path_spec (ddm : MatrixPackage) (ddv : VectorPackage)
    (eps traceThreshold fidelityThreshold : ℚ) (e f : MatrixDD) (u v : VectorDD)
    (hm : e.p = f.p) (hv : u.p = v.p) (heps : 0 < eps) :
    (equalsMat ddm eps traceThreshold e f =
      if ComplexValue.approximatelyEquals eps e.w f.w then
        EquivalenceCriterion.Equivalent
      else
        EquivalenceCriterion.EquivalentUpToGlobalPhase) ∧
    (equalsVec ddv eps fidelityThreshold u v =
      if ComplexValue.approximatelyEquals eps u.w v.w then
        EquivalenceCriterion.Equivalent
      else
        EquivalenceCriterion.EquivalentUpToGlobalPhase) ∧
    equalsMat ddm eps traceThreshold e e = EquivalenceCriterion.Equivalent ∧
    equalsVec ddv eps fidelityThreshold u u = EquivalenceCriterion.Equivalent := by
  have hrefl : ∀ w : ComplexValue, ComplexValue.approximatelyEquals eps w w = true := by
    intro w
    simp [ComplexValue.approximatelyEquals, qabs, heps]
  refine ⟨?_, ?_, ?_, ?_⟩
  · simp only [equalsMat, if_pos hm]
    cases hw : ComplexValue.approximatelyEquals eps e.w f.w <;> simp [hw]
  · simp only [equalsVec, if_pos hv]
    cases hw : ComplexValue.approximatelyEquals eps u.w v.w <;> simp [hw]
  · simp [equalsMat, hrefl]
  · simp [equalsVec, hrefl]

/-- Witness for C6 at concrete inputs: two handles sharing a node pointer
(each with itself) and a positive tolerance. -/
theorem equals_fast_path_spec_witness :
    (equalsMat mPkg (1/100) (1/1000) mddA mddA =
      if ComplexValue.approximatelyEquals (1/100) mddA.w mddA.w then
        EquivalenceCriterion.Equivalent
      else
        EquivalenceCriterion.EquivalentUpToGlobalPhase) ∧
    (equalsVec vPkg (1/100) (1/1000) vddA vddA =
      if ComplexValue.approximatelyEquals (1/100) vddA.w vddA.w then
        EquivalenceCriterion.Equivalent
      else
        EquivalenceCriterion.EquivalentUpToGlobalPhase) ∧
    equalsMat mPkg (1/100) (1/1000) mddA mddA = EquivalenceCriterion.Equivalent ∧
    equalsVec vPkg (1/100) (1/1000) vddA vddA = EquivalenceCriterion.Equivalent :=
  equals_fast_path_spec mPkg vPkg (1/100) (1/1000) (1/1000) mddA mddA vddA vddA
    rfl rfl (by norm_num)

/-- C10: `setRandomInitialState` sets the checker's `nqubits` field to
`qc1`'s qubit count without ancillae and passes that same value as both
the qubit count and the ancillary count to the state generator; besides
`nqubits` and `initialState` no other checker field is modified. -/
theorem setRandomInitialState_frame (generator : StateGenerator)
    (c : DDSimulationChecker) :
    (c.setRandomInitialState generator).nqubits = c.qc1.getNqubitsWithoutAncillae ∧
    (c.setRandomInitialState generator).initialState =
      generator.generateRandomState c.dd c.qc1.getNqubitsWithoutAncillae
        c.qc1.getNqubitsWithoutAncillae c.configuration.simulation.stateType ∧
    (c.setRandomInitialState generator).qc1 = c.qc1 ∧
    (c.setRandomInitialState generator).qc2 = c.qc2 ∧
    (c.setRandomInitialState generator).dd = c.dd ∧
    (c.setRandomInitialState generator).taskManager1 = c.taskManager1 ∧
    (c.setRandomInitialState generator).taskManager2 = c.taskManager2 ∧
    (c.setRandomInitialState generator).configuration = c.configuration ∧
    (c.setRandomInitialState generator).applicationScheme = c.applicationScheme ∧
    (c.setRandomInitialState generator).maxActiveNodes = c.maxActiveNodes :=
  ⟨rfl, rfl, rfl, rfl, rfl, rfl, rfl, rfl, rfl, rfl⟩

theorem lookaheadApply_ok (pkg : LookaheadPackage) (s : LookaheadState)
    (g : MatrixDD) (hg : s.internalState = some g) (hp : s.packageSet = true) :
    ∃ t, lookaheadApply pkg s = Except.ok ((0, 0), t) := by
  cases h : lookaheadApply pkg s with
  | error e =>
    exfalso
    unfold lookaheadApply at h
    rw [hg] at h
    simp only [hp, Bool.not_true, Bool.false_eq_true, if_false] at h
    cases hc1 : s.cached1 <;> cases hc2 : s.cached2 <;>
      simp only [hc1, hc2, Bool.not_true, Bool.not_false, Bool.false_eq_true,
        Bool.true_eq_false, if_true, if_false, ite_true, ite_false] at h <;>
      repeat' split at h
    all_goals exact Except.noConfusion h
  | ok r =>
    unfold lookaheadApply at h
    rw [hg] at h
    simp only [hp, Bool.not_true, Bool.false_eq_true, if_false] at h
    cases hc1 : s.cached1 <;> cases hc2 : s.cached2 <;>
      simp only [hc1, hc2, Bool.not_true, Bool.not_false, Bool.false_eq_true,
        Bool.true_eq_false, if_true, if_false, ite_true, ite_false] at h <;>
      repeat' split at h
    all_goals
      injection h with h
      exact ⟨_, by rw [← h]⟩

/-- C9: Invoking the Lookahead scheme before both the internal-state
pointer and the package reference have been set fails with
`UninitializedScheme`; when both are set, the call does not raise that
error. -/
theorem lookahead_uninitialized_iff (pkg : LookaheadPackage) (s : LookaheadState) :
    lookaheadApply pkg s = Except.error ECError.UninitializedScheme ↔
      (s.internalState = none ∨ s.packageSet = false) := by
  cases hg : s.internalState with
  | none => simp [lookaheadApply, hg]
  | some g =>
    cases hp : s.packageSet with
    | false => simp [lookaheadApply, hg, hp]
    | true =>
      constructor
      · intro h
        obtain ⟨t, ht⟩ := lookaheadApply_ok pkg s g hg hp
        rw [ht] at h
        exact Except.noConfusion h
      · rintro (h | h)
        · exact absurd h (by simp [hg])
        · exact absurd h (by simp [hp])

/-- C7: Every call of the Lookahead scheme's `operator()` returns `(0, 0)`;
whenever the two candidate sizes are equal the scheme chooses side 1: the
internal state becomes `op1 · saved`, and `taskManager1`'s cursor — not
`taskManager2`'s — is the one advanced (side 1 being unfinished, as the
driver guarantees at every invocation). -/
theorem lookahead_returns_zero_tie_prefers_side1 (pkg : LookaheadPackage)
    (s : LookaheadState) (g : MatrixDD)
    (hg : s.internalState = some g) (hp : s.packageSet = true) :
    (∃ t, lookaheadApply pkg s = Except.ok ((0, 0), t)) ∧
    (∀ t, lookaheadApply pkg s = Except.ok ((0, 0), t) →
      pkg.size (pkg.multiply (s.effOp1 pkg) g) =
        pkg.size (pkg.multiply g (s.effOp2 pkg)) →
      s.taskManager1.finished = false →
      t.internalState = some (pkg.multiply (s.effOp1 pkg) g) ∧
      t.taskManager1.cursor = s.taskManager1.cursor + 1 ∧
      t.taskManager2.cursor = s.taskManager2.cursor) := by
  refine ⟨lookaheadApply_ok pkg s g hg hp, ?_⟩
  intro t ht htie hfin
  unfold lookaheadApply at ht
  rw [hg] at ht
  simp only [hp, Bool.not_true, Bool.false_eq_true, if_false] at ht
  unfold LookaheadState.effOp1 LookaheadState.effOp2 at htie
  cases hc1 : s.cached1 <;> cases hc2 : s.cached2 <;>
    simp only [hc1, hc2, Bool.not_true, Bool.not_false, Bool.false_eq_true,
      Bool.true_eq_false, if_true, if_false, ite_true, ite_false] at ht htie <;>
  · rw [htie] at ht
    simp only [le_refl, ite_true, if_true, hfin, Bool.false_eq_true, if_false,
      ite_false] at ht
    simp only [Except.ok.injEq, Prod.mk.injEq] at ht
    obtain ⟨-, hrec⟩ := ht
    subst hrec
    refine ⟨?_, ?_, ?_⟩ <;>
      simp [LookaheadState.effOp1, hc1, TaskManager.advanceIterator]

/-- Witness for C8 at a concrete input: a configuration requesting the
Lookahead scheme. -/
theorem lookahead_vector_dd_unsupported_witness :
    mkEquivalenceChecker DDKind.vector qcEmpty qcOneOp cfgLookahead =
      Except.error ECError.UnsupportedSchemeForDDType ∧
    mkEquivalenceChecker DDKind.matrix qcEmpty qcOneOp cfgLookahead =
      Except.ok (mkEquivalenceCheckerMembers qcEmpty qcOneOp cfgLookahead,
        ApplicationSchemeChoice.lookahead) :=
  lookahead_vector_dd_unsupported qcEmpty qcOneOp cfgLookahead rfl

/-- Witness for C7 at a concrete input: a fully wired scheme state over a
package under which the two candidate sizes tie. -/
theorem lookahead_returns_zero_tie_prefers_side1_witness :
    (∃ t, lookaheadApply laPkg laState = Except.ok ((0, 0), t)) ∧
    (∀ t, lookaheadApply laPkg laState = Except.ok ((0, 0), t) →
      laPkg.size (laPkg.multiply (laState.effOp1 laPkg) mddI) =
        laPkg.size (laPkg.multiply mddI (laState.effOp2 laPkg)) →
      laState.taskManager1.finished = false →
      t.internalState = some (laPkg.multiply (laState.effOp1 laPkg) mddI) ∧
      t.taskManager1.cursor = laState.taskManager1.cursor + 1 ∧
      t.taskManager2.cursor = laState.taskManager2.cursor) :=
  lookahead_returns_zero_tie_prefers_side1 laPkg laState mddI rfl rfl

end QCEC
